import Mathlib

/-!
# HealthScoreAI core pipeline — shallow embedding and verification

This file embeds the decision core of `app.py` (HealthScoreAI): the biomarker
registry, the fuzzy text matcher, the CSV name adapter, the multi-source
merger, the tiered range classifier, the disease rule evaluator, the symptom
aggregator and the recommendation generator.

Modelling conventions:
* Python floats are modelled as exact rationals (`ℚ`).  All numeric literals
  in the source are decimal, so this is exact; no claim under study involves
  float rounding or NaN.
* Because the `Rat` field operations in the ambient library are `irreducible`
  (they do not evaluate inside `decide`), the embedding computes with
  kernel-evaluable wrappers `vadd`, `vsub`, `vdivNat`, `vsum` built from
  `mkRat`; the bridge lemmas `vadd_eq`, `vsub_eq`, `vdivNat_eq`, `vsum_eq`
  prove they are exactly `+`, `-`, `/` and `List.sum` on `ℚ`.
* Python `dict`s are modelled as insertion-ordered association lists
  (`List (String × _)`) with `List.lookup`, or — for the merge accumulator,
  whose iteration order no claim observes — as functions `String → Option _`.
* Python `set`s of strings (symptoms, recommendation buckets) are modelled as
  `Finset String`: the source serialises them with `list(s)`, whose element
  order is interpreter hash order and is not part of any claim; all claims
  about them are claims about their contents.
* Python string methods used by the source (`lower`, `strip`,
  single-character `replace`, substring `in`) are re-implemented over
  `List Char` so that they evaluate in the kernel; all source data is ASCII
  (plus `μ` in a unit label, which none of the string operations touch).
-/

namespace HealthScoreAI

/-! ## Kernel-evaluable rational arithmetic -/

/-- Decimal literal `n / d` (used for source literals such as `5.6`),
kernel-evaluable unlike the `OfScientific` instance. -/
def q (n : Int) (d : Nat) : ℚ := mkRat n d

/-- Kernel-evaluable addition on `ℚ`. -/
def vadd (a b : ℚ) : ℚ := mkRat (a.num * b.den + b.num * a.den) (a.den * b.den)

/-- Kernel-evaluable subtraction on `ℚ`. -/
def vsub (a b : ℚ) : ℚ := mkRat (a.num * b.den - b.num * a.den) (a.den * b.den)

/-- Kernel-evaluable division of a rational by a natural number (the source
only ever divides by `5` and by a list length). -/
def vdivNat (a : ℚ) (n : Nat) : ℚ := mkRat a.num (a.den * n)

/-- Kernel-evaluable sum of a list of rationals. -/
def vsum (l : List ℚ) : ℚ := l.foldr vadd 0

theorem vadd_eq (a b : ℚ) : vadd a b = a + b := by
  have ha : (a.den : ℚ) ≠ 0 := by exact_mod_cast a.den_nz
  have hb : (b.den : ℚ) ≠ 0 := by exact_mod_cast b.den_nz
  unfold vadd
  rw [Rat.mkRat_eq_div]
  conv_rhs => rw [← Rat.num_div_den a, ← Rat.num_div_den b]
  push_cast
  field_simp

theorem vsub_eq (a b : ℚ) : vsub a b = a - b := by
  have ha : (a.den : ℚ) ≠ 0 := by exact_mod_cast a.den_nz
  have hb : (b.den : ℚ) ≠ 0 := by exact_mod_cast b.den_nz
  unfold vsub
  rw [Rat.mkRat_eq_div]
  conv_rhs => rw [← Rat.num_div_den a, ← Rat.num_div_den b]
  push_cast
  field_simp
  ring

theorem vdivNat_eq (a : ℚ) (n : Nat) : vdivNat a n = a / n := by
  have ha : (a.den : ℚ) ≠ 0 := by exact_mod_cast a.den_nz
  unfold vdivNat
  rw [Rat.mkRat_eq_div]
  rcases Nat.eq_zero_or_pos n with h | h
  · subst h
    push_cast
    simp
  · have hn : (n : ℚ) ≠ 0 := by exact_mod_cast Nat.pos_iff_ne_zero.mp h
    conv_rhs => rw [← Rat.num_div_den a]
    push_cast
    field_simp

theorem vsum_eq (l : List ℚ) : vsum l = l.sum := by
  induction l with
  | nil => rfl
  | cons x xs ih =>
    simp only [vsum, List.foldr_cons, List.sum_cons] at *
    rw [vadd_eq, ih]

/-! ## Python string operations (over `List Char`, kernel-evaluable) -/

/-- ASCII lower-casing of one character, as Python `str.lower` acts on the
ASCII source data. -/
def lowChar (c : Char) : Char :=
  if 'A' ≤ c ∧ c ≤ 'Z' then Char.ofNat (c.toNat + 32) else c

/-- Python `s.lower()`. -/
def pyLower (s : String) : String := ⟨s.data.map lowChar⟩

/-- Python `s.replace(a, b)` for one-character `a`, `b` (the source only
replaces single characters by single characters or by the empty string). -/
def replChar (a b : Char) (s : String) : String :=
  ⟨s.data.map fun c => if c = a then b else c⟩

/-- Python `s.replace(a, "")` for a one-character `a`. -/
def dropChar (a : Char) (s : String) : String :=
  ⟨s.data.filter fun c => !(c = a : Bool)⟩

/-- Python `s.strip()`. -/
def pyStrip (s : String) : String :=
  ⟨((s.data.dropWhile Char.isWhitespace).reverse.dropWhile Char.isWhitespace).reverse⟩

/-- Does `l` start with `n`? -/
def startsChars : List Char → List Char → Bool
  | [], _ => true
  | _ :: _, [] => false
  | a :: as, b :: bs => a == b && startsChars as bs

/-- Does some suffix of the haystack start with the needle? -/
def containsChars (needle : List Char) : List Char → Bool
  | [] => startsChars needle []
  | c :: cs => startsChars needle (c :: cs) || containsChars needle cs

/-- Python `needle in hay` substring containment. -/
def hasSub (hay needle : String) : Bool := containsChars needle.data hay.data

/-! ## The biomarker registry (`BIOMARKER_RULES`, app.py lines 46-274)

Each entry carries the fields the core reads: unit, the display string of the
acceptable range (its first character drives a display-only branch in
`analyze_biomarker`), the numeric acceptable bounds, the high threshold and
the keyword alias list.  The per-status `insights` sub-dictionaries of the
source are dead data — `analyze_biomarker` builds its insight text from
fixed templates, never from them — and are omitted. -/

structure BiomarkerRule where
  unit : String
  acceptable_range : String
  acceptable_min : ℚ
  acceptable_max : ℚ
  high_threshold : ℚ
  keywords : List String
deriving DecidableEq, Repr

def glucose_rule : BiomarkerRule :=
  { unit := "mg/dL", acceptable_range := "70-100"
    acceptable_min := 70, acceptable_max := 100, high_threshold := 126
    keywords := ["glucose", "blood glucose", "fasting glucose", "random glucose"] }

def hba1c_rule : BiomarkerRule :=
  { unit := "%", acceptable_range := "4.0-5.6"
    acceptable_min := q 40 10, acceptable_max := q 56 10, high_threshold := q 65 10
    keywords := ["hba1c", "hemoglobin a1c", "glycated hemoglobin", "a1c"] }

def total_cholesterol_rule : BiomarkerRule :=
  { unit := "mg/dL", acceptable_range := "<200"
    acceptable_min := 0, acceptable_max := 200, high_threshold := 240
    keywords := ["total cholesterol", "cholesterol total", "chol total", "tc"] }

def ldl_rule : BiomarkerRule :=
  { unit := "mg/dL", acceptable_range := "<100"
    acceptable_min := 0, acceptable_max := 100, high_threshold := 160
    keywords := ["ldl", "ldl cholesterol", "low density lipoprotein", "bad cholesterol"] }

def hdl_rule : BiomarkerRule :=
  { unit := "mg/dL", acceptable_range := ">40 (M), >50 (F)"
    acceptable_min := 40, acceptable_max := 1000, high_threshold := 1000
    keywords := ["hdl", "hdl cholesterol", "high density lipoprotein", "good cholesterol"] }

def hemoglobin_rule : BiomarkerRule :=
  { unit := "g/dL", acceptable_range := "12-18"
    acceptable_min := 12, acceptable_max := 18, high_threshold := 20
    keywords := ["hemoglobin", "hgb", "hb", "haemoglobin"] }

def hematocrit_rule : BiomarkerRule :=
  { unit := "%", acceptable_range := "36-50"
    acceptable_min := 36, acceptable_max := 50, high_threshold := 55
    keywords := ["hematocrit", "hct", "packed cell volume", "pcv"] }

def tsh_rule : BiomarkerRule :=
  { unit := "mIU/L", acceptable_range := "0.4-4.0"
    acceptable_min := q 4 10, acceptable_max := q 40 10, high_threshold := q 100 10
    keywords := ["tsh", "thyroid stimulating hormone", "thyrotropin"] }

def vitamin_d_rule : BiomarkerRule :=
  { unit := "ng/mL", acceptable_range := "30-100"
    acceptable_min := 30, acceptable_max := 100, high_threshold := 150
    keywords := ["vitamin d", "vit d", "25-hydroxyvitamin d", "25(oh)d", "cholecalciferol"] }

def vitamin_b12_rule : BiomarkerRule :=
  { unit := "pg/mL", acceptable_range := "200-900"
    acceptable_min := 200, acceptable_max := 900, high_threshold := 1000
    keywords := ["vitamin b12", "vit b12", "cobalamin", "b-12"] }

def vitamin_c_rule : BiomarkerRule :=
  { unit := "mg/dL", acceptable_range := "0.6-2.0"
    acceptable_min := q 6 10, acceptable_max := q 20 10, high_threshold := q 30 10
    keywords := ["vitamin c", "vit c", "ascorbic acid", "ascorbate"] }

def vitamin_a_rule : BiomarkerRule :=
  { unit := "μg/dL", acceptable_range := "20-60"
    acceptable_min := 20, acceptable_max := 60, high_threshold := 100
    keywords := ["vitamin a", "vit a", "retinol", "beta carotene"] }

def systolic_bp_rule : BiomarkerRule :=
  { unit := "mmHg", acceptable_range := "90-120"
    acceptable_min := 90, acceptable_max := 120, high_threshold := 140
    keywords := ["systolic", "systolic blood pressure", "sbp", "sys bp"] }

def diastolic_bp_rule : BiomarkerRule :=
  { unit := "mmHg", acceptable_range := "60-80"
    acceptable_min := 60, acceptable_max := 80, high_threshold := 90
    keywords := ["diastolic", "diastolic blood pressure", "dbp", "dias bp"] }

def heart_rate_rule : BiomarkerRule :=
  { unit := "bpm", acceptable_range := "60-100"
    acceptable_min := 60, acceptable_max := 100, high_threshold := 120
    keywords := ["heart rate", "pulse", "hr", "beats per minute", "bpm"] }

def creatinine_rule : BiomarkerRule :=
  { unit := "mg/dL", acceptable_range := "0.6-1.3"
    acceptable_min := q 6 10, acceptable_max := q 13 10, high_threshold := q 20 10
    keywords := ["creatinine", "serum creatinine", "creat"] }

/-- The registry, in the iteration (insertion) order of the source dict. -/
def BIOMARKER_RULES : List (String × BiomarkerRule) :=
  [("glucose", glucose_rule), ("hba1c", hba1c_rule),
   ("total_cholesterol", total_cholesterol_rule), ("ldl", ldl_rule),
   ("hdl", hdl_rule), ("hemoglobin", hemoglobin_rule),
   ("hematocrit", hematocrit_rule), ("tsh", tsh_rule),
   ("vitamin_d", vitamin_d_rule), ("vitamin_b12", vitamin_b12_rule),
   ("vitamin_c", vitamin_c_rule), ("vitamin_a", vitamin_a_rule),
   ("systolic_bp", systolic_bp_rule), ("diastolic_bp", diastolic_bp_rule),
   ("heart_rate", heart_rate_rule), ("creatinine", creatinine_rule)]

/-! ## Biomarker matcher for unstructured text
(`standardize_biomarkers`, text branch, app.py lines 845-879)

The source iterates registry entries (outer), then extraction candidates,
then keyword aliases, then five context variations; the first satisfying
(alias, variation) pair assigns the candidate value to the registry key and
`break`s out to the next registry entry.  A candidate is a
(context, value, unit) triple; the unit takes no part in matching and is
dropped here. -/

/-- The five context variations of app.py lines 854-860, in source order. -/
def context_variations (context : String) : List String :=
  [context, replChar '_' ' ' context, dropChar ' ' context,
   replChar '-' ' ' context, replChar '/' ' ' context]

/-- The fuzzy test of app.py lines 866-870: case-insensitive bidirectional
substring containment, plus the two OCR-confusable substitutions. -/
def keyword_matches (keyword variation : String) : Bool :=
  hasSub (pyLower variation) (pyLower keyword) ||
  hasSub (pyLower keyword) (pyLower variation) ||
  hasSub (pyLower variation) (replChar 'o' '0' (pyLower keyword)) ||
  hasSub (pyLower variation) (replChar 'l' '1' (pyLower keyword))

/-- Does some (alias, variation) pair match the candidate context?
This collapses the two innermost loops (keyword order outer, variation order
inner), which only select which pair fires; the assigned value is the
candidate value in every case. -/
def context_matches (keywords : List String) (context : String) : Bool :=
  keywords.any fun kw => (context_variations context).any fun v => keyword_matches kw v

/-- The candidate scan for one registry key, mirroring the source `break`
structure: the first matching candidate claims the key and the scan stops. -/
def scanCandidates (keywords : List String) : List (String × ℚ) → Option ℚ
  | [] => none
  | c :: rest =>
    if context_matches keywords c.1 then some c.2 else scanCandidates keywords rest

/-- One step of the registry fold of app.py lines 850-879: if the scan for
this registry key found a value, bind the key (a fresh dict key, since
registry keys are distinct). -/
def matcher_step (cands : List (String × ℚ)) (acc : List (String × ℚ))
    (p : String × BiomarkerRule) : List (String × ℚ) :=
  match scanCandidates p.2.keywords cands with
  | some v => acc ++ [(p.1, v)]
  | none => acc

/-- `standardize_biomarkers` on extracted text candidates: registry order
outer, candidate order inner, alias/variation order innermost. -/
def standardize_text (cands : List (String × ℚ)) : List (String × ℚ) :=
  BIOMARKER_RULES.foldl (matcher_step cands) []

/-! ## Structured (CSV) source adapter
(`parse_csv_file` app.py lines 668-728, `standardize_biomarkers` CSV branch
lines 832-837, and the alias table of lines 882-906)

`parse_csv_file` has already parsed each data row into a name string and a
float (rows whose value fails `float()` are skipped before this point); we
model the per-row name normalisation and dict insertion.  The route handler
feeds CSV files to `parse_csv_file` directly; `standardize_biomarkers` with
`file_type == 'csv'` returns its input dictionary unchanged at lines
832-837, which makes the CSV alias-mapping block at lines 882-906
unreachable. -/

/-- Name normalisation of app.py lines 712 and 717:
`strip` then `lower`, then spaces and hyphens to underscores. -/
def parse_csv_normalize (s : String) : String :=
  replChar '-' '_' (replChar ' ' '_' (pyLower (pyStrip s)))

/-- Python dict assignment `d[k] = v` on an insertion-ordered association
list: overwrite in place if present, else append. -/
def dict_insert (m : List (String × ℚ)) (k : String) (v : ℚ) : List (String × ℚ) :=
  if (m.lookup k).isSome then m.map (fun p => if p.1 = k then (k, v) else p)
  else m ++ [(k, v)]

/-- The row loop of `parse_csv_file` (app.py lines 709-721) on already
float-parsed rows. -/
def parse_csv_rows (rows : List (String × ℚ)) : List (String × ℚ) :=
  rows.foldl (fun acc r => dict_insert acc (parse_csv_normalize r.1) r.2) []

/-- `standardize_biomarkers` for CSV input (app.py lines 832-837): the early
`return data_source` — the dictionary passes through unchanged. -/
def standardize_biomarkers_csv (d : List (String × ℚ)) : List (String × ℚ) := d

/-- The CSV alias table `name_mapping` of app.py lines 884-901.  This table
is dead code in the source: the early return at lines 832-837 exits before
the block at lines 882-906 that would consult it, and the analyze route
never calls `standardize_biomarkers` for CSV files at all. -/
def NAME_MAPPING : List (String × String) :=
  [("glucose", "glucose"), ("total_cholesterol", "total_cholesterol"),
   ("ldl_cholesterol", "ldl"), ("hdl_cholesterol", "hdl"),
   ("hemoglobin", "hemoglobin"), ("hematocrit", "hematocrit"),
   ("tsh", "tsh"), ("hba1c", "hba1c"), ("vitamin_d", "vitamin_d"),
   ("vitamin_b12", "vitamin_b12"), ("vitamin_c", "vitamin_c"),
   ("vitamin_a", "vitamin_a"), ("systolic_bp", "systolic_bp"),
   ("diastolic_bp", "diastolic_bp"), ("heart_rate", "heart_rate"),
   ("creatinine", "creatinine")]

/-! ## Multi-source merger (`analyze_report`, app.py lines 1326-1335 and
1371-1377)

The route accumulates per-source biomarker dicts into `all_biomarkers`: a
key seen once holds its scalar; a second observation turns it into a
two-element list; later ones append.  `final_biomarkers` then replaces each
list by its arithmetic mean.  No claim observes the accumulator dict
iteration order, so the accumulator is modelled as a function. -/

/-- A merge accumulator cell: a bare scalar after one observation, a list
after two or more (the scalar-or-list ambiguity of the source). -/
inductive MergedVal where
  | single : ℚ → MergedVal
  | multi : List ℚ → MergedVal
deriving DecidableEq, Repr

/-- One accumulation step for one observation (app.py lines 1327-1335). -/
def merge_step (acc : String → Option MergedVal) (p : String × ℚ) :
    String → Option MergedVal := fun k =>
  if k = p.1 then
    match acc p.1 with
    | none => some (.single p.2)
    | some (.single v0) => some (.multi [v0, p.2])
    | some (.multi vs) => some (.multi (vs ++ [p.2]))
  else acc k

/-- Accumulate all sources, source order outer, dict order inner. -/
def merge_all (sources : List (List (String × ℚ))) : String → Option MergedVal :=
  sources.foldl (fun acc src => src.foldl merge_step acc) (fun _ => none)

/-- The averaging step of app.py lines 1371-1377 on one accumulator cell. -/
def final_of_cell : Option MergedVal → Option ℚ
  | none => none
  | some (.single v) => some v
  | some (.multi vs) => some (vdivNat (vsum vs) vs.length)

/-- The merged (averaged) biomarker map. -/
def final_biomarkers (sources : List (List (String × ℚ))) (k : String) : Option ℚ :=
  final_of_cell (merge_all sources k)

/-- The ordered sequence of all values observed for key `k`, across all
sources in processing order. -/
def observed_values (sources : List (List (String × ℚ))) (k : String) : List ℚ :=
  sources.flatten.filterMap fun p => if p.1 = k then some p.2 else none

/-! ## Range classifier (`calculate_optimal_range` app.py lines 910-919,
`analyze_biomarker` lines 921-989) -/

/-- Optimal range = acceptable range shrunk by one fifth of its span on each
side (app.py lines 910-919). -/
def calculate_optimal_range (acceptable_min acceptable_max : ℚ) : ℚ × ℚ :=
  let margin := vdivNat (vsub acceptable_max acceptable_min) 5
  (vadd acceptable_min margin, vsub acceptable_max margin)

/-- A classified biomarker record.  The display-only fields of the source
dict (`name` via `str.title`, and the `optimal_range` string via `%.1f`
float formatting) are omitted: no claim reads them, and the status logic
does not depend on them.  The `insight` text embeds the registry
`acceptable_range` display string, which the source uses unchanged in all
three display branches. -/
structure AnalyzedBiomarker where
  value : ℚ
  unit : String
  acceptable_range : String
  status : String
  insight : String
  status_category : String
  is_optimal : Bool
deriving DecidableEq, Repr

/-- The tiered status decision of app.py lines 943-989 for a registered
biomarker. -/
def buildAnalysis (rules : BiomarkerRule) (value : ℚ) : AnalyzedBiomarker :=
  let om := calculate_optimal_range rules.acceptable_min rules.acceptable_max
  let ard := rules.acceptable_range
  if om.1 ≤ value ∧ value ≤ om.2 then
    { value, unit := rules.unit, acceptable_range := ard, status := "Optimal",
      insight := "This is within optimal range",
      status_category := "optimal", is_optimal := true }
  else if rules.acceptable_min ≤ value ∧ value ≤ rules.acceptable_max then
    if value < om.1 then
      { value, unit := rules.unit, acceptable_range := ard, status := "Below Optimal",
        insight := "This is below optimal range; acceptable range is " ++ ard,
        status_category := "below_optimal", is_optimal := false }
    else if value > om.2 then
      { value, unit := rules.unit, acceptable_range := ard, status := "Above Optimal",
        insight := "This is above optimal range; acceptable range is " ++ ard,
        status_category := "above_optimal", is_optimal := false }
    else
      { value, unit := rules.unit, acceptable_range := ard, status := "Optimal",
        insight := "This is within optimal range",
        status_category := "optimal", is_optimal := true }
  else if value < rules.acceptable_min then
    { value, unit := rules.unit, acceptable_range := ard, status := "Below Acceptable",
      insight := "This is below acceptable range; acceptable range is " ++ ard,
      status_category := "below_acceptable", is_optimal := false }
  else if value > rules.acceptable_max then
    if value ≥ rules.high_threshold then
      { value, unit := rules.unit, acceptable_range := ard, status := "Significantly High",
        insight := "This is significantly above acceptable range; acceptable range is " ++ ard,
        status_category := "significantly_high", is_optimal := false }
    else
      { value, unit := rules.unit, acceptable_range := ard, status := "Above Acceptable",
        insight := "This is above acceptable range; acceptable range is " ++ ard,
        status_category := "above_acceptable", is_optimal := false }
  else
    -- Final `else` of app.py lines 974-977 (status "Normal"); unreachable
    -- over ℚ by trichotomy, reachable in Python only for float NaN.
    { value, unit := rules.unit, acceptable_range := ard, status := "Normal",
      insight := "This is within optimal range",
      status_category := "optimal", is_optimal := true }

/-- `analyze_biomarker` (app.py lines 921-989): `None` for unregistered
keys. -/
def analyze_biomarker (biomarker_key : String) (value : ℚ) : Option AnalyzedBiomarker :=
  (BIOMARKER_RULES.lookup biomarker_key).map fun rules => buildAnalysis rules value

/-- The per-key classification of the analyze route (app.py lines
1380-1397): registered keys go through `analyze_biomarker`, unregistered
keys surface as an "unknown"-category record rather than being dropped.
(The source interpolates the raw value into the fallback insight text; the
text is display-only and kept constant here.) -/
def analyzeEntry (biomarker_key : String) (value : ℚ) : AnalyzedBiomarker :=
  match analyze_biomarker biomarker_key value with
  | some a => a
  | none =>
    { value, unit := "", acceptable_range := "Not defined", status := "Detected",
      insight := "Value detected. Reference ranges not available for this parameter.",
      status_category := "unknown", is_optimal := false }

/-- The classification loop over the merged map (app.py lines 1380-1397). -/
def analyze_all (m : List (String × ℚ)) : List AnalyzedBiomarker :=
  m.map fun p => analyzeEntry p.1 p.2

/-! ## Disease rule registry (`DISEASE_RULES`, app.py lines 277-515) -/

/-- A condition threshold: a scalar, or the two-element `[lo, hi]` list of a
`between` condition. -/
inductive CondValue where
  | scalar : ℚ → CondValue
  | pair : ℚ → ℚ → CondValue
deriving DecidableEq, Repr

structure Condition where
  biomarker : String
  operator : String
  value : CondValue
deriving DecidableEq, Repr

structure DiseaseRule where
  name : String
  conditions : List Condition
  logic : String
  priority : String
  reasoning : String
  symptoms : List String
deriving DecidableEq, Repr

def diabetes_type_2_rule : DiseaseRule :=
  { name := "Type 2 Diabetes"
    conditions := [⟨"glucose", ">=", .scalar 126⟩, ⟨"hba1c", ">=", .scalar (q 65 10)⟩]
    logic := "OR", priority := "High Risk"
    reasoning := "Elevated glucose and/or HbA1c levels indicate diabetes."
    symptoms := ["Increased thirst", "Frequent urination", "Fatigue", "Blurred vision",
                 "Slow wound healing", "Unexplained weight loss"] }

def prediabetes_rule : DiseaseRule :=
  { name := "Prediabetes"
    conditions := [⟨"glucose", "between", .pair 100 125⟩,
                   ⟨"hba1c", "between", .pair (q 57 10) (q 64 10)⟩]
    logic := "OR", priority := "Medium Risk"
    reasoning := "Blood sugar levels are higher than normal but not yet diabetic."
    symptoms := ["Mild fatigue", "Occasional increased thirst", "Slight weight changes",
                 "Increased appetite"] }

def high_glucose_rule : DiseaseRule :=
  { name := "Elevated Blood Glucose"
    conditions := [⟨"glucose", "between", .pair 110 125⟩]
    logic := "AND", priority := "Medium Risk"
    reasoning := "Glucose levels are above normal range, indicating potential metabolic issues."
    symptoms := ["Mild fatigue", "Increased thirst", "Frequent urination", "Sugar cravings"] }

def cardiovascular_risk_rule : DiseaseRule :=
  { name := "Cardiovascular Disease Risk"
    conditions := [⟨"total_cholesterol", ">=", .scalar 240⟩, ⟨"ldl", ">=", .scalar 160⟩,
                   ⟨"hdl", "<=", .scalar 35⟩]
    logic := "OR", priority := "High Risk"
    reasoning := "Abnormal cholesterol levels significantly increase heart disease risk."
    symptoms := ["Chest pain", "Shortness of breath", "Fatigue", "Leg pain when walking",
                 "Dizziness"] }

def moderate_cardiovascular_risk_rule : DiseaseRule :=
  { name := "Moderate Cardiovascular Risk"
    conditions := [⟨"total_cholesterol", "between", .pair 200 239⟩,
                   ⟨"ldl", "between", .pair 130 159⟩, ⟨"hdl", "between", .pair 35 45⟩]
    logic := "OR", priority := "Medium Risk"
    reasoning := "Borderline cholesterol levels warrant monitoring and lifestyle changes."
    symptoms := ["Mild chest discomfort", "Occasional fatigue", "Exercise intolerance",
                 "Mild shortness of breath"] }

def high_cholesterol_rule : DiseaseRule :=
  { name := "High Cholesterol"
    conditions := [⟨"total_cholesterol", ">=", .scalar 200⟩]
    logic := "AND", priority := "Medium Risk"
    reasoning := "Total cholesterol above recommended levels increases cardiovascular risk."
    symptoms := ["No obvious symptoms", "Potential fatigue", "Chest tightness during exercise"] }

def iron_deficiency_anemia_rule : DiseaseRule :=
  { name := "Iron Deficiency Anemia"
    conditions := [⟨"hemoglobin", "<", .scalar 12⟩, ⟨"hematocrit", "<", .scalar 36⟩]
    logic := "OR", priority := "Medium Risk"
    reasoning := "Low hemoglobin and hematocrit levels suggest iron deficiency anemia."
    symptoms := ["Fatigue", "Weakness", "Pale skin", "Cold hands and feet", "Restless legs",
                 "Brittle nails"] }

def mild_anemia_rule : DiseaseRule :=
  { name := "Mild Anemia"
    conditions := [⟨"hemoglobin", "between", .pair 12 (q 135 10)⟩,
                   ⟨"hematocrit", "between", .pair 36 40⟩]
    logic := "OR", priority := "Low Risk"
    reasoning := "Hemoglobin levels are on the lower end of normal range."
    symptoms := ["Mild fatigue", "Occasional weakness", "Slight pale appearance"] }

def hypothyroidism_rule : DiseaseRule :=
  { name := "Hypothyroidism"
    conditions := [⟨"tsh", ">", .scalar (q 40 10)⟩]
    logic := "AND", priority := "Medium Risk"
    reasoning := "Elevated TSH levels indicate an underactive thyroid gland."
    symptoms := ["Fatigue", "Weight gain", "Cold sensitivity", "Dry skin", "Hair loss",
                 "Depression", "Constipation"] }

def borderline_hypothyroidism_rule : DiseaseRule :=
  { name := "Borderline Hypothyroidism"
    conditions := [⟨"tsh", "between", .pair (q 30 10) (q 40 10)⟩]
    logic := "AND", priority := "Low Risk"
    reasoning := "TSH levels are in the upper normal range, may indicate early thyroid dysfunction."
    symptoms := ["Mild fatigue", "Slight weight gain", "Mild cold sensitivity"] }

def hyperthyroidism_rule : DiseaseRule :=
  { name := "Hyperthyroidism"
    conditions := [⟨"tsh", "<", .scalar (q 4 10)⟩]
    logic := "AND", priority := "Medium Risk"
    reasoning := "Low TSH levels indicate an overactive thyroid gland."
    symptoms := ["Weight loss", "Rapid heartbeat", "Nervousness", "Sweating", "Heat sensitivity",
                 "Irritability"] }

def metabolic_syndrome_risk_rule : DiseaseRule :=
  { name := "Metabolic Syndrome Risk"
    conditions := [⟨"glucose", ">=", .scalar 100⟩, ⟨"hdl", "<=", .scalar 50⟩,
                   ⟨"total_cholesterol", ">=", .scalar 200⟩]
    logic := "AND", priority := "High Risk"
    reasoning := "Combination of elevated glucose, low HDL, and high cholesterol suggests metabolic syndrome."
    symptoms := ["Abdominal weight gain", "Fatigue", "Increased thirst",
                 "High blood pressure symptoms"] }

def vitamin_d_deficiency_rule : DiseaseRule :=
  { name := "Vitamin D Deficiency"
    conditions := [⟨"vitamin_d", "<", .scalar 20⟩]
    logic := "AND", priority := "Medium Risk"
    reasoning := "Severely low vitamin D levels increase risk of bone diseases and immune dysfunction."
    symptoms := ["Bone pain", "Muscle weakness", "Frequent infections", "Fatigue", "Depression",
                 "Hair loss"] }

def vitamin_d_insufficiency_rule : DiseaseRule :=
  { name := "Vitamin D Insufficiency"
    conditions := [⟨"vitamin_d", "between", .pair 20 29⟩]
    logic := "AND", priority := "Low Risk"
    reasoning := "Suboptimal vitamin D levels may compromise bone health and immune function."
    symptoms := ["Mild fatigue", "Occasional muscle aches", "Susceptibility to colds"] }

def vitamin_b12_deficiency_rule : DiseaseRule :=
  { name := "Vitamin B12 Deficiency"
    conditions := [⟨"vitamin_b12", "<", .scalar 200⟩]
    logic := "AND", priority := "High Risk"
    reasoning := "B12 deficiency can cause serious neurological damage and pernicious anemia."
    symptoms := ["Extreme fatigue", "Memory problems", "Confusion", "Tingling in hands/feet",
                 "Balance issues", "Pale skin"] }

def low_vitamin_c_rule : DiseaseRule :=
  { name := "Vitamin C Deficiency"
    conditions := [⟨"vitamin_c", "<", .scalar (q 6 10)⟩]
    logic := "AND", priority := "Medium Risk"
    reasoning := "Low vitamin C increases risk of scurvy and compromises immune function."
    symptoms := ["Easy bruising", "Slow wound healing", "Joint pain", "Tooth loss",
                 "Bleeding gums"] }

def hypertension_stage_1_rule : DiseaseRule :=
  { name := "Stage 1 Hypertension"
    conditions := [⟨"systolic_bp", "between", .pair 130 139⟩,
                   ⟨"diastolic_bp", "between", .pair 80 89⟩]
    logic := "OR", priority := "Medium Risk"
    reasoning := "Blood pressure is elevated and requires lifestyle modifications."
    symptoms := ["Headaches", "Dizziness", "Shortness of breath", "Nosebleeds", "Flushing"] }

def hypertension_stage_2_rule : DiseaseRule :=
  { name := "Stage 2 Hypertension"
    conditions := [⟨"systolic_bp", ">=", .scalar 140⟩, ⟨"diastolic_bp", ">=", .scalar 90⟩]
    logic := "OR", priority := "High Risk"
    reasoning := "Significantly elevated blood pressure requires immediate medical attention."
    symptoms := ["Severe headaches", "Chest pain", "Vision problems", "Difficulty breathing",
                 "Irregular heartbeat"] }

def hypotension_rule : DiseaseRule :=
  { name := "Low Blood Pressure (Hypotension)"
    conditions := [⟨"systolic_bp", "<", .scalar 90⟩, ⟨"diastolic_bp", "<", .scalar 60⟩]
    logic := "OR", priority := "Medium Risk"
    reasoning := "Low blood pressure may cause inadequate blood flow to organs."
    symptoms := ["Dizziness", "Fainting", "Fatigue", "Nausea", "Cold/clammy skin",
                 "Blurred vision"] }

def tachycardia_rule : DiseaseRule :=
  { name := "Tachycardia (Rapid Heart Rate)"
    conditions := [⟨"heart_rate", ">", .scalar 100⟩]
    logic := "AND", priority := "Medium Risk"
    reasoning := "Elevated resting heart rate may indicate cardiovascular stress or other conditions."
    symptoms := ["Palpitations", "Shortness of breath", "Dizziness", "Chest pain", "Fatigue"] }

def bradycardia_rule : DiseaseRule :=
  { name := "Bradycardia (Slow Heart Rate)"
    conditions := [⟨"heart_rate", "<", .scalar 60⟩]
    logic := "AND", priority := "Low Risk"
    reasoning := "Low heart rate may be normal for athletes or indicate cardiac conduction issues."
    symptoms := ["Fatigue", "Dizziness", "Weakness", "Confusion", "Fainting spells"] }

def kidney_dysfunction_rule : DiseaseRule :=
  { name := "Kidney Dysfunction"
    conditions := [⟨"creatinine", ">", .scalar (q 13 10)⟩]
    logic := "AND", priority := "High Risk"
    reasoning := "Elevated creatinine indicates reduced kidney function."
    symptoms := ["Decreased urination", "Swelling in legs/ankles", "Fatigue", "Nausea",
                 "Confusion"] }

/-- The disease rule registry, in source dict order. -/
def DISEASE_RULES : List (String × DiseaseRule) :=
  [("diabetes_type_2", diabetes_type_2_rule), ("prediabetes", prediabetes_rule),
   ("high_glucose", high_glucose_rule), ("cardiovascular_risk", cardiovascular_risk_rule),
   ("moderate_cardiovascular_risk", moderate_cardiovascular_risk_rule),
   ("high_cholesterol", high_cholesterol_rule),
   ("iron_deficiency_anemia", iron_deficiency_anemia_rule), ("mild_anemia", mild_anemia_rule),
   ("hypothyroidism", hypothyroidism_rule),
   ("borderline_hypothyroidism", borderline_hypothyroidism_rule),
   ("hyperthyroidism", hyperthyroidism_rule),
   ("metabolic_syndrome_risk", metabolic_syndrome_risk_rule),
   ("vitamin_d_deficiency", vitamin_d_deficiency_rule),
   ("vitamin_d_insufficiency", vitamin_d_insufficiency_rule),
   ("vitamin_b12_deficiency", vitamin_b12_deficiency_rule),
   ("low_vitamin_c", low_vitamin_c_rule),
   ("hypertension_stage_1", hypertension_stage_1_rule),
   ("hypertension_stage_2", hypertension_stage_2_rule),
   ("hypotension", hypotension_rule), ("tachycardia", tachycardia_rule),
   ("bradycardia", bradycardia_rule), ("kidney_dysfunction", kidney_dysfunction_rule)]

/-! ## Disease rule evaluator (`evaluate_disease_condition` app.py lines
991-1015, `detect_diseases` lines 1017-1075) -/

/-- The operator dispatch of app.py lines 1002-1015.  Combinations the
Python code would crash on — a scalar comparison against a `[lo, hi]` list
or `between` against a scalar — do not occur in `DISEASE_RULES`; they are
mapped to `false` here, as is an unknown operator string (the source `return
False` fall-through). -/
def applyOp (op : String) (cv : CondValue) (v : ℚ) : Bool :=
  if op = ">=" then match cv with | .scalar t => decide (v ≥ t) | .pair _ _ => false
  else if op = "<=" then match cv with | .scalar t => decide (v ≤ t) | .pair _ _ => false
  else if op = ">" then match cv with | .scalar t => decide (v > t) | .pair _ _ => false
  else if op = "<" then match cv with | .scalar t => decide (v < t) | .pair _ _ => false
  else if op = "==" ∨ op = "=" then match cv with | .scalar t => decide (v = t) | .pair _ _ => false
  else if op = "between" then
    match cv with | .pair lo hi => decide (lo ≤ v ∧ v ≤ hi) | .scalar _ => false
  else false

/-- `evaluate_disease_condition`: a condition on an absent biomarker is
`false` (the early return of app.py line 997-998) — it never raises. -/
def evaluate_disease_condition (c : Condition) (biomarkers : List (String × ℚ)) : Bool :=
  match biomarkers.lookup c.biomarker with
  | none => false
  | some v => applyOp c.operator c.value v

/-- Per-rule logic combination (app.py lines 1026-1037): `AND` requires all
conditions, `OR` at least one, anything else detects nothing. -/
def rule_fires (rule : DiseaseRule) (biomarkers : List (String × ℚ)) : Bool :=
  let rs := rule.conditions.map fun c => evaluate_disease_condition c biomarkers
  if rule.logic = "AND" then rs.all id
  else if rule.logic = "OR" then rs.any id
  else false

structure DetectedDisease where
  name : String
  priority : String
  reasoning : String
deriving DecidableEq, Repr

/-- The priority rank of app.py lines 1072-1073 (`.get(priority, 5)`). -/
def priority_rank (p : String) : Nat :=
  if p = "High Risk" then 0
  else if p = "Medium Risk" then 1
  else if p = "Low Risk" then 2
  else if p = "Monitor" then 3
  else if p = "Excellent Health" then 4
  else 5

/-- The all-optimal check of app.py lines 1048-1055 (loop with early break,
expressed as `List.all`): every biomarker of the map that is in the registry
lies inside its optimal band. -/
def all_optimal (biomarkers : List (String × ℚ)) : Bool :=
  biomarkers.all fun p =>
    match BIOMARKER_RULES.lookup p.1 with
    | none => true
    | some r =>
      let om := calculate_optimal_range r.acceptable_min r.acceptable_max
      decide (om.1 ≤ p.2 ∧ p.2 ≤ om.2)

/-- The "Everything Fine" fallback record (app.py lines 1057-1062). -/
def everything_fine_condition : DetectedDisease :=
  { name := "Everything Fine", priority := "Excellent Health"
    reasoning := "All biomarkers are within optimal ranges. No potential health conditions detected." }

/-- The "Health Monitoring Recommended" fallback record (app.py lines 1063-1069). -/
def health_monitoring_condition : DetectedDisease :=
  { name := "Health Monitoring Recommended", priority := "Monitor"
    reasoning := "Some biomarkers are outside optimal ranges but no specific diseases detected. Continue monitoring and consider lifestyle improvements." }

/-- Stable insertion into a list sorted by priority rank: the new element
goes after every element of rank ≤ its own.  Together with
`sort_by_priority` this realises the stable sort of Python `list.sort`. -/
def insert_ranked (x : DetectedDisease) : List DetectedDisease → List DetectedDisease
  | [] => [x]
  | y :: ys =>
    if priority_rank y.priority ≤ priority_rank x.priority then y :: insert_ranked x ys
    else x :: y :: ys

/-- Stable sort by priority rank (Python `list.sort` with the
`priority_order` key, app.py lines 1071-1073). -/
def sort_by_priority : List DetectedDisease → List DetectedDisease
  | [] => []
  | x :: xs => insert_ranked x (sort_by_priority xs)

/-- The rules fired on a map, in registry order, as detected-disease
records (app.py lines 1021-1044). -/
def fired_diseases (biomarkers : List (String × ℚ)) : List DetectedDisease :=
  (DISEASE_RULES.filter fun p => rule_fires p.2 biomarkers).map fun p =>
    ⟨p.2.name, p.2.priority, p.2.reasoning⟩

/-- `detect_diseases` (app.py lines 1017-1075): all fired rules; if none
fired, a single fallback record depending on the all-optimal check; finally
the stable priority sort. -/
def detect_diseases (biomarkers : List (String × ℚ)) : List DetectedDisease :=
  sort_by_priority
    (if (fired_diseases biomarkers).isEmpty then
      if all_optimal biomarkers then [everything_fine_condition]
      else [health_monitoring_condition]
    else fired_diseases biomarkers)

example : detect_diseases [("glucose", 80)] = [everything_fine_condition] := by decide
example : detect_diseases [("glucose", 50)] = [health_monitoring_condition] := by decide
example : (detect_diseases [("glucose", 130)]).map (fun d => d.name)
    = ["Type 2 Diabetes"] := by decide
example : (detect_diseases [("hemoglobin", q 118 10), ("hematocrit", 35)]).map (fun d => d.name)
    = ["Iron Deficiency Anemia"] := by decide
example : (detect_diseases [("tsh", q 32 10)]).map (fun d => d.name)
    = ["Borderline Hypothyroidism"] := by decide

/-! ## Symptom aggregator (`get_symptoms`, app.py lines 1077-1221)

The source collects symptoms in a Python `set` and returns
`list(symptoms)[:15]` — element order is interpreter hash order, and the
truncation can only drop elements when more than 15 accumulate.  The
aggregator is therefore modelled by the set it computes (`Finset String`);
every concrete case in the claims involves at most a handful of entries. -/

/-- One biomarker entry of the `general_symptoms` table (app.py lines
1082-1148).  Severity sub-keys the source omits for a biomarker are the
empty list — observationally identical, since the source only reads them
with `.get(key, [])`. -/
structure GeneralSymptoms where
  high : List String := []
  borderline : List String := []
  low : List String := []
  borderline_high : List String := []
  borderline_low : List String := []
deriving DecidableEq, Repr

/-- The `general_symptoms` table of app.py lines 1082-1148. -/
def GENERAL_SYMPTOMS : List (String × GeneralSymptoms) :=
  [("glucose",
    { high := ["Increased thirst", "Frequent urination", "Fatigue", "Blurred vision"]
      borderline := ["Mild fatigue", "Occasional thirst", "Sugar cravings"] }),
   ("total_cholesterol",
    { high := ["No obvious symptoms initially", "Potential chest discomfort", "Exercise fatigue"]
      borderline := ["Mild exercise intolerance", "Occasional fatigue"] }),
   ("ldl",
    { high := ["Chest tightness during exercise", "Shortness of breath", "Fatigue"]
      borderline := ["Mild chest discomfort during activity"] }),
   ("hdl",
    { low := ["Increased cardiovascular risk symptoms", "Exercise intolerance"]
      borderline := ["Mild fatigue during physical activity"] }),
   ("hemoglobin",
    { low := ["Fatigue", "Weakness", "Pale skin", "Cold hands and feet", "Shortness of breath"]
      borderline := ["Mild fatigue", "Occasional weakness", "Slight paleness"] }),
   ("hematocrit",
    { low := ["Fatigue", "Weakness", "Dizziness", "Cold sensitivity"]
      borderline := ["Mild fatigue", "Occasional dizziness"] }),
   ("tsh",
    { high := ["Fatigue", "Weight gain", "Cold sensitivity", "Dry skin", "Hair thinning"]
      low := ["Weight loss", "Rapid heartbeat", "Nervousness", "Sweating", "Heat sensitivity"]
      borderline_high := ["Mild fatigue", "Slight weight gain", "Mild cold sensitivity"]
      borderline_low := ["Mild nervousness", "Slight weight loss", "Mild heat sensitivity"] }),
   ("hba1c",
    { high := ["Fatigue", "Increased thirst", "Frequent urination", "Slow healing"]
      borderline := ["Mild fatigue", "Occasional increased appetite"] }),
   ("vitamin_d",
    { low := ["Bone pain", "Muscle weakness", "Frequent infections", "Depression"]
      borderline := ["Mild fatigue", "Occasional muscle aches"] }),
   ("vitamin_b12",
    { low := ["Extreme fatigue", "Memory problems", "Tingling in hands/feet", "Balance issues"]
      borderline := ["Mild fatigue", "Occasional memory lapses"] }),
   ("vitamin_c",
    { low := ["Easy bruising", "Slow wound healing", "Bleeding gums", "Joint pain"]
      borderline := ["Mild bruising", "Slower healing"] }),
   ("systolic_bp",
    { high := ["Headaches", "Dizziness", "Shortness of breath", "Chest pain"]
      low := ["Dizziness", "Fainting", "Fatigue"]
      borderline := ["Mild headaches", "Occasional dizziness"] }),
   ("diastolic_bp",
    { high := ["Headaches", "Dizziness", "Blurred vision"]
      low := ["Light-headedness", "Weakness"]
      borderline := ["Mild dizziness"] }),
   ("heart_rate",
    { high := ["Palpitations", "Shortness of breath", "Chest discomfort", "Dizziness"]
      low := ["Fatigue", "Dizziness", "Weakness"]
      borderline := ["Mild palpitations", "Occasional fatigue"] }),
   ("creatinine",
    { high := ["Decreased urination", "Swelling in legs/ankles", "Fatigue", "Nausea"]
      borderline := ["Mild fatigue", "Occasional swelling"] })]

/-- Aggregation state: the symptom set and the two "something was added"
flags of app.py lines 1151 and 1167. -/
structure SymState where
  symptoms : Finset String
  dflag : Bool
  bflag : Bool
deriving DecidableEq

/-- Disease loop body (app.py lines 1152-1164): generic health status
records are skipped; otherwise the flag is set and the first rule whose
display name matches (case-insensitively) contributes its symptom list. -/
def add_disease_symptoms (st : SymState) (d : DetectedDisease) : SymState :=
  let n := pyLower d.name
  if n = "everything fine" ∨ n = "health monitoring recommended" then st
  else
    let st1 : SymState := { st with dflag := true }
    match DISEASE_RULES.find? (fun p => pyLower p.2.name == n) with
    | some p => { st1 with symptoms := st1.symptoms ∪ p.2.symptoms.toFinset }
    | none => st1

/-- Biomarker loop body (app.py lines 1168-1189).  The source tests
`value >= rules.get('high_threshold', float('inf'))`; every registry entry
has a `high_threshold`, so the default never applies.  The `< acceptable_min`
branch of lines 1178-1183 has an identical `tsh`/other split (both arms
update with the `low` set); it is written as the single common update here. -/
def add_biomarker_symptoms (st : SymState) (p : String × ℚ) : SymState :=
  match BIOMARKER_RULES.lookup p.1, GENERAL_SYMPTOMS.lookup p.1 with
  | some r, some gs =>
    if p.2 ≥ r.high_threshold then
      { st with symptoms := st.symptoms ∪ gs.high.toFinset, bflag := true }
    else if p.2 > r.acceptable_max then
      { st with symptoms := st.symptoms ∪ gs.borderline.toFinset, bflag := true }
    else if p.2 < r.acceptable_min then
      { st with symptoms := st.symptoms ∪ gs.low.toFinset, bflag := true }
    else if p.1 = "tsh" ∧ p.2 > 3 then
      { st with symptoms := st.symptoms ∪ gs.borderline_high.toFinset, bflag := true }
    else if p.1 = "hdl" ∧ p.2 < 50 then
      { st with symptoms := st.symptoms ∪ gs.borderline.toFinset, bflag := true }
    else st
  | _, _ => st

/-- Both aggregation loops of `get_symptoms` (app.py lines 1150-1189). -/
def get_symptoms_state (detected : List DetectedDisease) (biomarkers : List (String × ℚ)) :
    SymState :=
  biomarkers.foldl add_biomarker_symptoms (detected.foldl add_disease_symptoms ⟨∅, false, false⟩)

/-- The positive-health message set of app.py lines 1192-1199. -/
def POSITIVE_HEALTH_MESSAGES : List String :=
  ["All biomarkers within optimal ranges - no symptoms to monitor",
   "Excellent overall health indicators",
   "Continue current healthy lifestyle practices",
   "Maintain regular health check-ups",
   "Stay active and eat a balanced diet"]

/-- The generic-guidance fallback set of app.py lines 1200-1208. -/
def GENERIC_GUIDANCE_MESSAGES : List String :=
  ["Monitor general health indicators regularly",
   "Maintain healthy lifestyle practices",
   "Follow up with healthcare provider as needed",
   "Stay hydrated and get adequate sleep",
   "Continue regular exercise routine"]

/-- The under-3 padding set of app.py lines 1214-1219. -/
def PAD_MESSAGES : List String :=
  ["Regular health monitoring recommended",
   "Maintain balanced nutrition and exercise",
   "Consult healthcare provider for personalized advice"]

/-- The fallback substitution of app.py lines 1191-1208. -/
def substitute_fallbacks (st : SymState) : Finset String :=
  if st.symptoms = ∅ ∧ st.dflag = false ∧ st.bflag = false then
    POSITIVE_HEALTH_MESSAGES.toFinset
  else if st.symptoms = ∅ then GENERIC_GUIDANCE_MESSAGES.toFinset
  else st.symptoms

/-- The minimum-3 padding of app.py lines 1214-1219 (set view). -/
def pad_min3 (s : Finset String) : Finset String :=
  if s.card < 3 then s ∪ PAD_MESSAGES.toFinset else s

/-- `get_symptoms` as the set of returned messages (the returned list is
`list(set)[:15]` in the source; see the section comment). -/
def get_symptoms_finset (detected : List DetectedDisease)
    (biomarkers : List (String × ℚ)) : Finset String :=
  pad_min3 (substitute_fallbacks (get_symptoms_state detected biomarkers))

/-! ## Recommendation generator (`generate_recommendations`, app.py lines
1223-1258)

Buckets are Python `set`s, converted back to lists in hash order; they are
modelled as `Finset String`.  The `biomarkers` argument of the source is
unused; it is kept for interface fidelity. -/

structure RecTemplate where
  professional : List String
  dietary : List String
  lifestyle : List String
deriving DecidableEq, Repr

def diabetes_type_2_template : RecTemplate :=
  { professional := ["Schedule an appointment with an endocrinologist",
                     "Regular monitoring with your primary care physician",
                     "Consider diabetes education classes"]
    dietary := ["Follow a low-carbohydrate diet", "Monitor portion sizes and meal timing",
                "Increase fiber intake", "Limit sugar and processed foods"]
    lifestyle := ["Engage in regular physical activity (150 minutes/week)",
                  "Monitor blood glucose regularly", "Maintain a healthy weight",
                  "Manage stress levels"] }

def cardiovascular_risk_template : RecTemplate :=
  { professional := ["Consult with a cardiologist", "Discuss statin therapy with your doctor",
                     "Regular blood pressure monitoring"]
    dietary := ["Adopt a Mediterranean or DASH diet", "Reduce saturated and trans fats",
                "Increase omega-3 fatty acids", "Limit sodium intake"]
    lifestyle := ["Regular aerobic exercise", "Quit smoking if applicable",
                  "Maintain a healthy weight", "Limit alcohol consumption"] }

def iron_deficiency_anemia_template : RecTemplate :=
  { professional := ["See a hematologist for further evaluation",
                     "Investigate underlying causes of iron deficiency",
                     "Regular follow-up blood tests"]
    dietary := ["Increase iron-rich foods (lean meats, spinach, beans)",
                "Combine iron foods with vitamin C sources",
                "Consider iron supplements as prescribed",
                "Avoid coffee and tea with iron-rich meals"]
    lifestyle := ["Adequate rest and sleep", "Gradual increase in physical activity",
                  "Monitor symptoms closely"] }

def thyroid_disorders_template : RecTemplate :=
  { professional := ["Consult with an endocrinologist", "Regular thyroid function monitoring",
                     "Discuss medication options"]
    dietary := ["Ensure adequate iodine intake", "Consider selenium-rich foods",
                "Maintain a balanced diet"]
    lifestyle := ["Manage stress levels", "Regular sleep schedule", "Monitor symptoms"] }

def general_wellness_template : RecTemplate :=
  { professional := ["Annual physical examination", "Regular preventive screenings",
                     "Discuss any concerns with your healthcare provider"]
    dietary := ["Maintain a balanced, nutritious diet", "Stay hydrated",
                "Limit processed foods"]
    lifestyle := ["Regular physical activity", "Adequate sleep (7-9 hours)",
                  "Stress management", "Avoid tobacco and limit alcohol"] }

/-- `RECOMMENDATION_TEMPLATES` (app.py lines 518-610). -/
def RECOMMENDATION_TEMPLATES : List (String × RecTemplate) :=
  [("diabetes_type_2", diabetes_type_2_template),
   ("cardiovascular_risk", cardiovascular_risk_template),
   ("iron_deficiency_anemia", iron_deficiency_anemia_template),
   ("thyroid_disorders", thyroid_disorders_template),
   ("general_wellness", general_wellness_template)]

/-- The three recommendation buckets. -/
structure Recommendations where
  professional : Finset String
  dietary : Finset String
  lifestyle : Finset String
deriving DecidableEq

/-- The template selection of app.py lines 1236-1244: an `if/elif` chain of
substring tests on the lower-cased condition name (first match wins). -/
def template_key_for (disease_name : String) : Option String :=
  let n := pyLower disease_name
  if hasSub n "diabetes" then some "diabetes_type_2"
  else if hasSub n "cardiovascular" then some "cardiovascular_risk"
  else if hasSub n "anemia" then some "iron_deficiency_anemia"
  else if hasSub n "thyroid" then some "thyroid_disorders"
  else none

/-- One disease step of the recommendation loop (app.py lines 1232-1249). -/
def recommend_step (acc : Recommendations) (d : DetectedDisease) : Recommendations :=
  match template_key_for d.name with
  | some key =>
    match RECOMMENDATION_TEMPLATES.lookup key with
    | some t =>
      { professional := acc.professional ∪ t.professional.toFinset
        dietary := acc.dietary ∪ t.dietary.toFinset
        lifestyle := acc.lifestyle ∪ t.lifestyle.toFinset }
    | none => acc
  | none => acc

/-- `generate_recommendations` (app.py lines 1223-1258).  The general
wellness branch (lines 1251-1255) fires only when the `detected_diseases`
list itself is empty, and unions the first two items of each bucket. -/
def generate_recommendations (detected : List DetectedDisease)
    (biomarkers : List (String × ℚ)) : Recommendations :=
  let recs := detected.foldl recommend_step ⟨∅, ∅, ∅⟩
  if detected.isEmpty then
    { professional := recs.professional ∪ (general_wellness_template.professional.take 2).toFinset
      dietary := recs.dietary ∪ (general_wellness_template.dietary.take 2).toFinset
      lifestyle := recs.lifestyle ∪ (general_wellness_template.lifestyle.take 2).toFinset }
  else recs

/-- The three-bucket result the specification prescribes when no
disease-type condition fired: the first two items of each bucket of the
general wellness template.  (Defined for comparison against
`generate_recommendations`; the code only produces it on an empty input
list.) -/
def general_wellness_first_two : Recommendations :=
  { professional := (general_wellness_template.professional.take 2).toFinset
    dietary := (general_wellness_template.dietary.take 2).toFinset
    lifestyle := (general_wellness_template.lifestyle.take 2).toFinset }

example : generate_recommendations [everything_fine_condition] [] = ⟨∅, ∅, ∅⟩ := by decide
example : generate_recommendations [] [] = general_wellness_first_two := by decide
example : (get_symptoms_state [health_monitoring_condition] [("glucose", 50)]).symptoms = ∅ := by
  decide
example : get_symptoms_finset [health_monitoring_condition] [("glucose", 50)]
    = GENERIC_GUIDANCE_MESSAGES.toFinset := by decide
example : get_symptoms_finset [everything_fine_condition] [("glucose", 80)]
    = POSITIVE_HEALTH_MESSAGES.toFinset := by decide

/-! ## Theorems for the claims -/

/-- C1. An input batch in which no biomarker was matched gives an empty
merged canonical map; on it the core yields zero classified biomarkers and
the single "Everything Fine" fallback condition (one of the two fallbacks
the claim allows — the all-optimal check is vacuously true on an empty map),
and, being a total function into these values, never raises.  The
sample-data substitution of app.py lines 1344-1367 lives in the HTTP route
before the core entry points, matching the claim that fallback/sample data
is not produced by the core. -/
theorem claim_C1_empty_batch :
    analyze_all [] = []
    ∧ detect_diseases [] = [everything_fine_condition]
    ∧ (everything_fine_condition.name = "Everything Fine"
       ∨ everything_fine_condition.name = "Health Monitoring Recommended") :=
  ⟨rfl, by decide, Or.inl rfl⟩

/-- C2 counterexample.  A run of the recommendation generator in which no
disease-type condition fired: on the map `{glucose: 80}` the evaluator fires
no rule and emits the "Everything Fine" pseudo-condition, so the list
reaching `generate_recommendations` is non-empty, the general-wellness
branch is skipped, and all three buckets come back empty — not the first
two items of each general-wellness bucket as the claim states. -/
theorem claim_C2_counterexample :
    detect_diseases [("glucose", 80)] = [everything_fine_condition]
    ∧ generate_recommendations (detect_diseases [("glucose", 80)]) [("glucose", 80)] = ⟨∅, ∅, ∅⟩
    ∧ generate_recommendations (detect_diseases [("glucose", 80)]) [("glucose", 80)]
        ≠ general_wellness_first_two := by
  refine ⟨by decide, by decide, ?_⟩
  decide

-- If every name in the list is one of the two fallback pseudo-conditions,
-- no recommendation template is selected for it.
theorem template_key_for_fallback (d : DetectedDisease)
    (h : pyLower d.name = "everything fine"
         ∨ pyLower d.name = "health monitoring recommended") :
    template_key_for d.name = none := by
  simp only [template_key_for]
  rcases h with h | h <;> rw [h] <;> decide

theorem recommend_foldl_skip :
    ∀ (ds : List DetectedDisease) (acc : Recommendations),
      (∀ d ∈ ds, template_key_for d.name = none) →
      ds.foldl recommend_step acc = acc := by
  intro ds
  induction ds with
  | nil => intro acc _; rfl
  | cons d rest ih =>
    intro acc h
    have hd : template_key_for d.name = none := h d (List.mem_cons_self d rest)
    have hstep : recommend_step acc d = acc := by
      unfold recommend_step
      rw [hd]
    rw [List.foldl_cons, hstep]
    exact ih acc fun x hx => h x (List.mem_cons_of_mem d hx)

/-- C2 amended.  The general-wellness first-two union is produced only when
the detected-condition list handed to the generator is empty; since the
evaluator always emits a fallback pseudo-condition when no disease-type
condition fired, such pipeline runs instead produce three empty buckets. -/
theorem claim_C2_amended :
    ∀ (bm : List (String × ℚ)) (ds : List DetectedDisease),
      generate_recommendations [] bm = general_wellness_first_two
      ∧ (ds ≠ [] →
         (∀ d ∈ ds, pyLower d.name = "everything fine"
                    ∨ pyLower d.name = "health monitoring recommended") →
         generate_recommendations ds bm = ⟨∅, ∅, ∅⟩) := by
  intro bm ds
  constructor
  · simp [generate_recommendations, general_wellness_first_two]
  · intro hne hfall
    unfold generate_recommendations
    rw [recommend_foldl_skip ds _ (fun d hd => template_key_for_fallback d (hfall d hd))]
    have hie : ds.isEmpty = false := by
      cases ds with
      | nil => exact absurd rfl hne
      | cons a l => rfl
    rw [hie]
    rfl

/-- C2 amended, witness: on an empty list the generator returns the first
two items of each general-wellness bucket; on the singleton "Everything
Fine" pseudo-condition it returns three empty buckets. -/
theorem claim_C2_amended_witness :
    generate_recommendations [] [] = general_wellness_first_two
    ∧ ([everything_fine_condition] ≠ ([] : List DetectedDisease))
    ∧ generate_recommendations [everything_fine_condition] [] = ⟨∅, ∅, ∅⟩ := by
  have h := claim_C2_amended [] [everything_fine_condition]
  exact ⟨h.1, by decide, h.2 (by decide) (by decide)⟩

/-- C3.  The CSV reader normalises the name "LDL Cholesterol" to
`ldl_cholesterol`, but the canonical-alias remapping the claim (and the
dead `name_mapping` table of app.py lines 884-906, unreachable behind the
early return of lines 832-837) prescribes never runs: the key stays
`ldl_cholesterol`, which is not a registry key, so the reading is classified
with the "unknown" category instead of surfacing under the canonical key
`ldl`. -/
theorem claim_C3_csv_alias_dead :
    parse_csv_rows [("LDL Cholesterol", 80)] = [("ldl_cholesterol", 80)]
    ∧ standardize_biomarkers_csv (parse_csv_rows [("LDL Cholesterol", 80)])
        = [("ldl_cholesterol", 80)]
    ∧ (standardize_biomarkers_csv (parse_csv_rows [("LDL Cholesterol", 80)])).lookup "ldl" = none
    ∧ NAME_MAPPING.lookup "ldl_cholesterol" = some "ldl"
    ∧ BIOMARKER_RULES.lookup "ldl_cholesterol" = none
    ∧ (analyzeEntry "ldl_cholesterol" 80).status_category = "unknown" := by
  refine ⟨by decide, by decide, by decide, by decide, by decide, ?_⟩
  decide

/-- C4 counterexample.  On `{glucose: 50}` the pipeline detects only the
"Health Monitoring Recommended" pseudo-condition; the symptom union is
empty (glucose is below its acceptable minimum, but its symptom-table entry
has no `low` set), yet the aggregator returns the generic-guidance set, not
the positive-health set the claim requires for an empty union. -/
theorem claim_C4_counterexample :
    detect_diseases [("glucose", 50)] = [health_monitoring_condition]
    ∧ (get_symptoms_state [health_monitoring_condition] [("glucose", 50)]).symptoms = ∅
    ∧ get_symptoms_finset [health_monitoring_condition] [("glucose", 50)]
        = GENERIC_GUIDANCE_MESSAGES.toFinset
    ∧ GENERIC_GUIDANCE_MESSAGES.toFinset ≠ POSITIVE_HEALTH_MESSAGES.toFinset := by
  refine ⟨by decide, by decide, by decide, ?_⟩
  decide

/-- C4 amended.  When the symptom union is empty the aggregator returns the
positive-health set only if additionally no disease branch and no biomarker
severity branch fired at all; if a branch fired without contributing
symptoms (its table entry is missing, as for glucose below the acceptable
minimum), the generic-guidance set is returned instead. -/
theorem claim_C4_amended :
    ∀ (detected : List DetectedDisease) (bm : List (String × ℚ)),
      (get_symptoms_state detected bm).symptoms = ∅ →
      get_symptoms_finset detected bm =
        (if (get_symptoms_state detected bm).dflag = false
            ∧ (get_symptoms_state detected bm).bflag = false
         then POSITIVE_HEALTH_MESSAGES.toFinset
         else GENERIC_GUIDANCE_MESSAGES.toFinset) := by
  intro det bm h
  unfold get_symptoms_finset substitute_fallbacks
  rw [h]
  by_cases hd : (get_symptoms_state det bm).dflag = false
      ∧ (get_symptoms_state det bm).bflag = false
  · rw [if_pos ⟨rfl, hd.1, hd.2⟩, if_pos hd]
    unfold pad_min3
    rw [if_neg (by decide)]
  · rw [if_neg (fun hc => hd ⟨hc.2.1, hc.2.2⟩), if_pos rfl, if_neg hd]
    unfold pad_min3
    rw [if_neg (by decide)]

/-- C4 amended, witness: the "Everything Fine" run on an optimal glucose
value enters no branch, has an empty union, and yields exactly the
positive-health message set. -/
theorem claim_C4_amended_witness :
    (get_symptoms_state [everything_fine_condition] [("glucose", 80)]).symptoms = ∅
    ∧ get_symptoms_finset [everything_fine_condition] [("glucose", 80)]
        = POSITIVE_HEALTH_MESSAGES.toFinset := by
  have h := claim_C4_amended [everything_fine_condition] [("glucose", 80)] (by decide)
  refine ⟨by decide, ?_⟩
  rw [h, if_pos ⟨by decide, by decide⟩]

/-- C6.  For the glucose registry entry (acceptable 70-100, high threshold
126): value 115 classifies "Above Acceptable", value 126 classifies
"Significantly High" (the high-threshold boundary is inclusive), and value
80 classifies "Optimal". -/
theorem claim_C6_glucose_examples :
    BIOMARKER_RULES.lookup "glucose" = some glucose_rule
    ∧ glucose_rule.acceptable_min = 70
    ∧ glucose_rule.acceptable_max = 100
    ∧ glucose_rule.high_threshold = 126
    ∧ (analyze_biomarker "glucose" 115).map (fun a => a.status) = some "Above Acceptable"
    ∧ (analyze_biomarker "glucose" 115).map (fun a => a.status_category)
        = some "above_acceptable"
    ∧ (analyze_biomarker "glucose" 126).map (fun a => a.status) = some "Significantly High"
    ∧ (analyze_biomarker "glucose" 126).map (fun a => a.status_category)
        = some "significantly_high"
    ∧ (analyze_biomarker "glucose" 80).map (fun a => a.status) = some "Optimal"
    ∧ (analyze_biomarker "glucose" 80).map (fun a => a.status_category) = some "optimal" := by
  refine ⟨by decide, by decide, by decide, by decide, by decide, by decide, by decide,
    by decide, by decide, ?_⟩
  decide

/-! ### Matcher refinement (claim C5) -/

-- The short-circuit scan returns the first matching candidate.
theorem scanCandidates_first_match (kws : List String) :
    ∀ (pre : List (String × ℚ)) (c : String × ℚ) (post : List (String × ℚ)),
      (∀ p ∈ pre, context_matches kws p.1 = false) →
      context_matches kws c.1 = true →
      scanCandidates kws (pre ++ c :: post) = some c.2 := by
  intro pre
  induction pre with
  | nil =>
    intro c post _ hc
    simp [scanCandidates, hc]
  | cons p ps ih =>
    intro c post hpre hc
    have hp : context_matches kws p.1 = false := hpre p (List.mem_cons_self p ps)
    simp only [List.cons_append, scanCandidates, hp, Bool.false_eq_true, if_false]
    exact ih c post (fun x hx => hpre x (List.mem_cons_of_mem p hx)) hc

/-- The (key, value) pair one registry entry contributes, if any. -/
def matcher_entry (cands : List (String × ℚ)) (p : String × BiomarkerRule) :
    Option (String × ℚ) :=
  (scanCandidates p.2.keywords cands).map fun v => (p.1, v)

-- The nested loops with breaks equal a `filterMap` of per-key scans.
theorem matcher_foldl_eq (cands : List (String × ℚ)) :
    ∀ (l : List (String × BiomarkerRule)) (acc : List (String × ℚ)),
      l.foldl (matcher_step cands) acc = acc ++ l.filterMap (matcher_entry cands) := by
  intro l
  induction l with
  | nil => intro acc; simp
  | cons p ps ih =>
    intro acc
    rw [List.foldl_cons]
    rcases hscan : scanCandidates p.2.keywords cands with _ | v
    · have hstep : matcher_step cands acc p = acc := by
        unfold matcher_step
        rw [hscan]
      have hent : matcher_entry cands p = none := by
        unfold matcher_entry
        rw [hscan]
        rfl
      rw [hstep, ih, List.filterMap_cons, hent]
    · have hstep : matcher_step cands acc p = acc ++ [(p.1, v)] := by
        unfold matcher_step
        rw [hscan]
      have hent : matcher_entry cands p = some (p.1, v) := by
        unfold matcher_entry
        rw [hscan]
        rfl
      rw [hstep, ih, List.filterMap_cons, hent, List.append_assoc, List.singleton_append]

theorem lookup_matcher_of_notmem (cands : List (String × ℚ)) (k : String) :
    ∀ l : List (String × BiomarkerRule), k ∉ l.map Prod.fst →
      (l.filterMap (matcher_entry cands)).lookup k = none := by
  intro l
  induction l with
  | nil => intro _; rfl
  | cons p ps ih =>
    intro hk
    have hk1 : k ≠ p.1 := by
      intro h
      exact hk (by simp [h])
    have hk2 : k ∉ ps.map Prod.fst := fun h => hk (by simp [List.mem_cons_of_mem, h])
    rcases hscan : scanCandidates p.2.keywords cands with _ | v
    · have hent : matcher_entry cands p = none := by
        unfold matcher_entry
        rw [hscan]
        rfl
      rw [List.filterMap_cons, hent]
      exact ih hk2
    · have hent : matcher_entry cands p = some (p.1, v) := by
        unfold matcher_entry
        rw [hscan]
        rfl
      have hbeq : (k == p.1) = false := beq_eq_false_iff_ne.mpr hk1
      rw [List.filterMap_cons, hent]
      simp only [List.lookup, hbeq]
      exact ih hk2

theorem lookup_matcher_of_mem (cands : List (String × ℚ)) (k : String) :
    ∀ l : List (String × BiomarkerRule), (l.map Prod.fst).Nodup →
      ∀ r : BiomarkerRule, (k, r) ∈ l →
      (l.filterMap (matcher_entry cands)).lookup k = scanCandidates r.keywords cands := by
  intro l
  induction l with
  | nil => intro _ r h; cases h
  | cons p ps ih =>
    intro hnd r hmem
    have hnd1 : p.1 ∉ ps.map Prod.fst := by
      rw [List.map_cons, List.nodup_cons] at hnd
      exact hnd.1
    have hnd2 : (ps.map Prod.fst).Nodup := by
      rw [List.map_cons, List.nodup_cons] at hnd
      exact hnd.2
    rcases List.mem_cons.mp hmem with heq | hmem2
    · subst heq
      rcases hscan : scanCandidates r.keywords cands with _ | v
      · have hent : matcher_entry cands (k, r) = none := by
          unfold matcher_entry
          rw [hscan]
          rfl
        rw [List.filterMap_cons, hent]
        exact lookup_matcher_of_notmem cands k ps hnd1
      · have hent : matcher_entry cands (k, r) = some (k, v) := by
          unfold matcher_entry
          rw [hscan]
          rfl
        rw [List.filterMap_cons, hent]
        simp [List.lookup]
    · have hk1 : k ≠ p.1 := by
        intro h
        apply hnd1
        have : k ∈ ps.map Prod.fst := List.mem_map_of_mem Prod.fst hmem2
        rwa [h] at this
      rcases hscan : scanCandidates p.2.keywords cands with _ | v
      · have hent : matcher_entry cands p = none := by
          unfold matcher_entry
          rw [hscan]
          rfl
        rw [List.filterMap_cons, hent]
        exact ih hnd2 r hmem2
      · have hent : matcher_entry cands p = some (p.1, v) := by
          unfold matcher_entry
          rw [hscan]
          rfl
        have hbeq : (k == p.1) = false := beq_eq_false_iff_ne.mpr hk1
        rw [List.filterMap_cons, hent]
        simp only [List.lookup, hbeq]
        exact ih hnd2 r hmem2

theorem matcher_keys_sublist (cands : List (String × ℚ)) :
    ∀ l : List (String × BiomarkerRule),
      ((l.filterMap (matcher_entry cands)).map Prod.fst).Sublist (l.map Prod.fst) := by
  intro l
  induction l with
  | nil => simp
  | cons p ps ih =>
    rcases hscan : scanCandidates p.2.keywords cands with _ | v
    · have hent : matcher_entry cands p = none := by
        unfold matcher_entry
        rw [hscan]
        rfl
      rw [List.filterMap_cons, hent, List.map_cons]
      exact ih.cons p.1
    · have hent : matcher_entry cands p = some (p.1, v) := by
        unfold matcher_entry
        rw [hscan]
        rfl
      rw [List.filterMap_cons, hent, List.map_cons, List.map_cons]
      exact ih.cons₂ p.1

/-- C5.  For every registry key, the matcher result is exactly the
short-circuit scan in the documented order — registry order outer, candidate
order inner, alias/variation order innermost: the first satisfying candidate
claims the value for the key and the search for that key stops (any earlier
non-matching candidates are skipped, everything after the first match is
ignored), and the produced map binds each key at most once, so a key value
is never overwritten within the pass. -/
theorem claim_C5_first_match_wins :
    ∀ (k : String) (r : BiomarkerRule), (k, r) ∈ BIOMARKER_RULES →
      (∀ cands, (standardize_text cands).lookup k = scanCandidates r.keywords cands)
      ∧ (∀ (pre : List (String × ℚ)) (c : String × ℚ) (post : List (String × ℚ)),
          (∀ p ∈ pre, context_matches r.keywords p.1 = false) →
          context_matches r.keywords c.1 = true →
          (standardize_text (pre ++ c :: post)).lookup k = some c.2)
      ∧ (∀ cands, ((standardize_text cands).map Prod.fst).Nodup) := by
  intro k r hkr
  have hnd : (BIOMARKER_RULES.map Prod.fst).Nodup := by decide
  have hmain : ∀ cands, (standardize_text cands).lookup k = scanCandidates r.keywords cands := by
    intro cands
    unfold standardize_text
    rw [matcher_foldl_eq, List.nil_append]
    exact lookup_matcher_of_mem cands k BIOMARKER_RULES hnd r hkr
  refine ⟨hmain, ?_, ?_⟩
  · intro pre c post hpre hc
    rw [hmain (pre ++ c :: post)]
    exact scanCandidates_first_match r.keywords pre c post hpre hc
  · intro cands
    unfold standardize_text
    rw [matcher_foldl_eq, List.nil_append]
    exact List.Nodup.sublist (matcher_keys_sublist cands BIOMARKER_RULES) hnd

/-- C5 witness: for the glucose entry, a non-matching candidate is skipped,
the candidate "fasting glucose" = 115 claims the key, and the later
candidate "glucose" = 90 does not overwrite it. -/
theorem claim_C5_witness :
    (("glucose", glucose_rule) ∈ BIOMARKER_RULES)
    ∧ context_matches glucose_rule.keywords "patient age" = false
    ∧ context_matches glucose_rule.keywords "fasting glucose" = true
    ∧ (standardize_text
        [("patient age", 45), ("fasting glucose", 115), ("glucose", 90)]).lookup "glucose"
      = some 115 := by
  refine ⟨by decide, by decide, by decide, ?_⟩
  exact (claim_C5_first_match_wins "glucose" glucose_rule (by decide)).2.1
    [("patient age", 45)] ("fasting glucose", 115) [("glucose", 90)] (by decide) (by decide)

/-! ### Classifier totality (claim C7) -/

/-- The closed status-category enumeration of the data model. -/
def STATUS_CATEGORIES : List String :=
  ["optimal", "below_optimal", "above_optimal", "below_acceptable",
   "above_acceptable", "significantly_high", "unknown"]

theorem buildAnalysis_category_mem (r : BiomarkerRule) (v : ℚ) :
    (buildAnalysis r v).status_category ∈ STATUS_CATEGORIES := by
  unfold buildAnalysis
  dsimp only
  split_ifs <;> simp [STATUS_CATEGORIES]

theorem lookup_of_mem_keys :
    ∀ (l : List (String × BiomarkerRule)) (k : String),
      k ∈ l.map Prod.fst → ∃ r, l.lookup k = some r := by
  intro l
  induction l with
  | nil => intro k h; cases h
  | cons p ps ih =>
    obtain ⟨a, b⟩ := p
    intro k hk
    by_cases h : k = a
    · exact ⟨b, by simp [List.lookup, h]⟩
    · have hbeq : (k == a) = false := beq_eq_false_iff_ne.mpr h
      have hk2 : k ∈ ps.map Prod.fst := by
        rcases List.mem_cons.mp hk with h1 | h1
        · exact absurd h1 h
        · exact h1
      obtain ⟨r, hr⟩ := ih k hk2
      exact ⟨r, by simp only [List.lookup, hbeq]; exact hr⟩

/-- C7.  Classification of a registered key is total and deterministic: for
every value there is exactly one classified record, and its status category
belongs to the closed enumeration.  (Determinism over repeated calls is the
uniqueness half; the embedding is a pure function of (key, value).) -/
theorem claim_C7_total_deterministic :
    ∀ k : String, k ∈ BIOMARKER_RULES.map Prod.fst → ∀ v : ℚ,
      ∃! a : AnalyzedBiomarker,
        analyze_biomarker k v = some a ∧ a.status_category ∈ STATUS_CATEGORIES := by
  intro k hk v
  obtain ⟨r, hr⟩ := lookup_of_mem_keys BIOMARKER_RULES k hk
  refine ⟨buildAnalysis r v, ⟨?_, buildAnalysis_category_mem r v⟩, ?_⟩
  · unfold analyze_biomarker
    rw [hr]
    rfl
  · rintro b ⟨hb, _⟩
    unfold analyze_biomarker at hb
    rw [hr] at hb
    simp only [Option.map_some'] at hb
    exact (Option.some_inj.mp hb).symm

/-- C7 witness at the registered key `glucose` and value `0`. -/
theorem claim_C7_witness :
    ("glucose" ∈ BIOMARKER_RULES.map Prod.fst)
    ∧ ∃! a : AnalyzedBiomarker,
        analyze_biomarker "glucose" 0 = some a ∧ a.status_category ∈ STATUS_CATEGORIES :=
  ⟨by decide, claim_C7_total_deterministic "glucose" (by decide) 0⟩

/-! ### Merger correctness (claim C8) -/

/-- What one accumulator cell must hold after a sequence of observations:
nothing, the bare scalar, or the full list. -/
def merged_cell_spec : List ℚ → Option MergedVal
  | [] => none
  | [v] => some (.single v)
  | vs => some (.multi vs)

/-- The values observed for `k` in one flat pair sequence, in order. -/
def pair_values (pairs : List (String × ℚ)) (k : String) : List ℚ :=
  pairs.filterMap fun p => if p.1 = k then some p.2 else none

theorem merge_step_spec (acc : String → Option MergedVal) (g : String → List ℚ)
    (hacc : ∀ k, acc k = merged_cell_spec (g k)) (p : String × ℚ) :
    ∀ k, merge_step acc p k
      = merged_cell_spec (g k ++ if p.1 = k then [p.2] else []) := by
  intro k
  unfold merge_step
  by_cases hk : k = p.1
  · subst hk
    rw [if_pos rfl, if_pos rfl, hacc p.1]
    rcases hg : g p.1 with _ | ⟨v, tl⟩
    · simp [merged_cell_spec]
    · rcases tl with _ | ⟨w, rest⟩
      · simp [merged_cell_spec]
      · simp [merged_cell_spec]
  · rw [if_neg hk, if_neg (fun h => hk h.symm), List.append_nil, hacc]

theorem merge_foldl_spec :
    ∀ (pairs : List (String × ℚ)) (acc : String → Option MergedVal) (g : String → List ℚ),
      (∀ k, acc k = merged_cell_spec (g k)) →
      ∀ k, pairs.foldl merge_step acc k = merged_cell_spec (g k ++ pair_values pairs k) := by
  intro pairs
  induction pairs with
  | nil =>
    intro acc g hacc k
    simp [pair_values, hacc]
  | cons p ps ih =>
    intro acc g hacc k
    rw [List.foldl_cons]
    rw [ih (merge_step acc p) (fun k => g k ++ if p.1 = k then [p.2] else [])
      (merge_step_spec acc g hacc p) k]
    congr 1
    rw [List.append_assoc]
    congr 1
    by_cases hk : p.1 = k
    · simp [pair_values, List.filterMap_cons, hk]
    · simp [pair_values, List.filterMap_cons, hk]

theorem merge_all_eq_flatten :
    ∀ (sources : List (List (String × ℚ))) (acc : String → Option MergedVal),
      sources.foldl (fun a src => src.foldl merge_step a) acc
        = sources.flatten.foldl merge_step acc := by
  intro sources
  induction sources with
  | nil => intro acc; rfl
  | cons s rest ih =>
    intro acc
    rw [List.foldl_cons, List.flatten_cons, List.foldl_append]
    exact ih (s.foldl merge_step acc)

theorem merge_all_spec (sources : List (List (String × ℚ))) (k : String) :
    merge_all sources k = merged_cell_spec (observed_values sources k) := by
  unfold merge_all
  rw [merge_all_eq_flatten]
  have h := merge_foldl_spec sources.flatten (fun _ => none) (fun _ => []) (fun _ => rfl) k
  simpa [observed_values, pair_values] using h

theorem final_of_cell_mean (vs : List ℚ) (h : vs ≠ []) :
    final_of_cell (merged_cell_spec vs) = some (vs.sum / vs.length) := by
  match vs with
  | [] => exact absurd rfl h
  | [v] => simp [merged_cell_spec, final_of_cell]
  | v :: w :: rest => simp [merged_cell_spec, final_of_cell, vdivNat_eq, vsum_eq]

/-- C8.  The merged value of every key observed in at least one source is
the arithmetic mean of the ordered sequence of all its observed values; in
particular merging [90, 110] gives 100 and a singleton [100] stays 100. -/
theorem claim_C8_merge_mean :
    (∀ (sources : List (List (String × ℚ))) (k : String),
      observed_values sources k ≠ [] →
      final_biomarkers sources k
        = some ((observed_values sources k).sum / (observed_values sources k).length))
    ∧ final_biomarkers [[("glucose", 90)], [("glucose", 110)]] "glucose" = some 100
    ∧ final_biomarkers [[("glucose", 100)]] "glucose" = some 100 := by
  refine ⟨?_, by decide, by decide⟩
  intro sources k h
  unfold final_biomarkers
  rw [merge_all_spec]
  exact final_of_cell_mean _ h

/-- C8 witness: a key observed twice among three sources. -/
theorem claim_C8_witness :
    observed_values [[("glucose", 90)], [("glucose", 110)], [("hdl", 50)]] "glucose" ≠ []
    ∧ final_biomarkers [[("glucose", 90)], [("glucose", 110)], [("hdl", 50)]] "glucose"
      = some
        ((observed_values [[("glucose", 90)], [("glucose", 110)], [("hdl", 50)]] "glucose").sum
          / (observed_values [[("glucose", 90)], [("glucose", 110)], [("hdl", 50)]]
              "glucose").length) :=
  ⟨by decide, claim_C8_merge_mean.1 [[("glucose", 90)], [("glucose", 110)], [("hdl", 50)]]
    "glucose" (by decide)⟩

/-! ### Condition evaluation (claim C9) -/

/-- C9.  A condition whose biomarker key is absent evaluates to `false`
(and, the evaluator being a total function, never raises); on a present key
each operator compares directly against the looked-up value, with `between`
inclusive on both ends. -/
theorem claim_C9_condition_eval :
    ∀ (c : Condition) (bm : List (String × ℚ)),
      (bm.lookup c.biomarker = none → evaluate_disease_condition c bm = false)
      ∧ (∀ v : ℚ, bm.lookup c.biomarker = some v →
          (∀ t, c.operator = ">=" → c.value = .scalar t →
            (evaluate_disease_condition c bm = true ↔ v ≥ t))
          ∧ (∀ t, c.operator = "<=" → c.value = .scalar t →
            (evaluate_disease_condition c bm = true ↔ v ≤ t))
          ∧ (∀ t, c.operator = ">" → c.value = .scalar t →
            (evaluate_disease_condition c bm = true ↔ v > t))
          ∧ (∀ t, c.operator = "<" → c.value = .scalar t →
            (evaluate_disease_condition c bm = true ↔ v < t))
          ∧ (∀ t, c.operator = "==" ∨ c.operator = "=" → c.value = .scalar t →
            (evaluate_disease_condition c bm = true ↔ v = t))
          ∧ (∀ lo hi, c.operator = "between" → c.value = .pair lo hi →
            (evaluate_disease_condition c bm = true ↔ lo ≤ v ∧ v ≤ hi))) := by
  intro c bm
  constructor
  · intro h
    unfold evaluate_disease_condition
    rw [h]
  · intro v hv
    have he : evaluate_disease_condition c bm = applyOp c.operator c.value v := by
      unfold evaluate_disease_condition
      rw [hv]
    refine ⟨?_, ?_, ?_, ?_, ?_, ?_⟩
    · intro t hop hval
      rw [he, hop, hval]
      simp [applyOp]
    · intro t hop hval
      rw [he, hop, hval]
      simp [applyOp]
    · intro t hop hval
      rw [he, hop, hval]
      simp [applyOp]
    · intro t hop hval
      rw [he, hop, hval]
      simp [applyOp]
    · intro t hop hval
      rcases hop with hop | hop <;> rw [he, hop, hval] <;> simp [applyOp]
    · intro lo hi hop hval
      rw [he, hop, hval]
      simp [applyOp]

/-- C9 witness: `between [3, 4]` is true at the inclusive lower boundary on a
present key, and the same condition on an absent key is false. -/
theorem claim_C9_witness :
    ([("tsh", (3 : ℚ))].lookup "tsh" = some 3)
    ∧ evaluate_disease_condition ⟨"tsh", "between", .pair 3 4⟩ [("tsh", 3)] = true
    ∧ evaluate_disease_condition ⟨"hba1c", "between", .pair 3 4⟩ [("tsh", 3)] = false := by
  have h := (claim_C9_condition_eval ⟨"tsh", "between", .pair 3 4⟩ [("tsh", 3)]).2 3 (by decide)
  have habs :=
    (claim_C9_condition_eval ⟨"hba1c", "between", .pair 3 4⟩ [("tsh", 3)]).1 (by decide)
  exact ⟨by decide, (h.2.2.2.2.2 3 4 rfl rfl).mpr (by decide), habs⟩

/-! ### Rule evaluator monotonicity (claim C10) -/

theorem mem_insert_ranked (x y : DetectedDisease) :
    ∀ l : List DetectedDisease, (x ∈ insert_ranked y l ↔ x = y ∨ x ∈ l) := by
  intro l
  induction l with
  | nil => simp [insert_ranked]
  | cons z zs ih =>
    unfold insert_ranked
    by_cases h : priority_rank z.priority ≤ priority_rank y.priority
    · rw [if_pos h]
      simp only [List.mem_cons, ih]
      tauto
    · rw [if_neg h]
      simp [List.mem_cons]

theorem mem_sort_by_priority (x : DetectedDisease) :
    ∀ l : List DetectedDisease, (x ∈ sort_by_priority l ↔ x ∈ l) := by
  intro l
  induction l with
  | nil => simp [sort_by_priority]
  | cons z zs ih =>
    unfold sort_by_priority
    rw [mem_insert_ranked]
    simp [ih]

-- Distinct rules of the registry carry distinct display names.
theorem disease_rule_pairs_name_inj :
    ∀ p ∈ DISEASE_RULES, ∀ p2 ∈ DISEASE_RULES, p.2.name = p2.2.name → p = p2 := by decide

-- No registry rule carries a fallback pseudo-condition name.
theorem disease_rule_names_not_fallback :
    ∀ p ∈ DISEASE_RULES,
      p.2.name ≠ "Everything Fine" ∧ p.2.name ≠ "Health Monitoring Recommended" := by decide

theorem fired_mem_names (bm : List (String × ℚ)) (nm : String) :
    nm ∈ (fired_diseases bm).map (fun d => d.name)
      ↔ ∃ p ∈ DISEASE_RULES, rule_fires p.2 bm = true ∧ p.2.name = nm := by
  unfold fired_diseases
  simp only [List.map_map, List.mem_map, Function.comp, List.mem_filter]
  constructor
  · rintro ⟨p, ⟨hp, hf⟩, hn⟩
    exact ⟨p, hp, hf, hn⟩
  · rintro ⟨p, hp, hf, hn⟩
    exact ⟨p, ⟨hp, hf⟩, hn⟩

theorem fires_iff_mem_detect (k : String) (rule : DiseaseRule)
    (hmem : (k, rule) ∈ DISEASE_RULES) (bm : List (String × ℚ)) :
    rule_fires rule bm = true ↔ rule.name ∈ (detect_diseases bm).map fun d => d.name := by
  cases hdd : (fired_diseases bm).isEmpty with
  | true =>
    have hf : fired_diseases bm = [] := List.isEmpty_iff.mp hdd
    constructor
    · intro hfires
      exfalso
      have hrec : (⟨rule.name, rule.priority, rule.reasoning⟩ : DetectedDisease)
          ∈ fired_diseases bm := by
        unfold fired_diseases
        exact List.mem_map_of_mem _ (List.mem_filter.mpr ⟨hmem, hfires⟩)
      rw [hf] at hrec
      exact absurd hrec (List.not_mem_nil _)
    · intro hin
      exfalso
      unfold detect_diseases at hin
      rw [hdd, if_pos rfl] at hin
      cases hopt : all_optimal bm with
      | true =>
        rw [hopt, if_pos rfl] at hin
        simp [sort_by_priority, insert_ranked, everything_fine_condition] at hin
        exact (disease_rule_names_not_fallback (k, rule) hmem).1 hin
      | false =>
        rw [hopt] at hin
        simp [sort_by_priority, insert_ranked, health_monitoring_condition] at hin
        exact (disease_rule_names_not_fallback (k, rule) hmem).2 hin
  | false =>
    unfold detect_diseases
    rw [hdd]
    have hite :
        (if (false : Bool) then
          if all_optimal bm then [everything_fine_condition]
          else [health_monitoring_condition]
        else fired_diseases bm) = fired_diseases bm := by
      simp
    rw [hite]
    have hsort : rule.name ∈ (sort_by_priority (fired_diseases bm)).map (fun d => d.name)
        ↔ rule.name ∈ (fired_diseases bm).map (fun d => d.name) := by
      simp [List.mem_map, mem_sort_by_priority]
    rw [hsort, fired_mem_names]
    constructor
    · intro hfires
      exact ⟨(k, rule), hmem, hfires, rfl⟩
    · rintro ⟨p, hp, hpf, hpn⟩
      have hpe : p = (k, rule) := disease_rule_pairs_name_inj p hp (k, rule) hmem (by rw [hpn])
      rw [hpe] at hpf
      exact hpf

/-- C10.  For every registry rule: an AND rule that fires is removed from
the result by flipping any one passing condition to failing (the other
condition results unchanged); an OR rule fires iff at least one condition
passes; and firing is equivalent to the rule name appearing in the
`detect_diseases` output. -/
theorem claim_C10_rule_monotone :
    ∀ (k : String) (rule : DiseaseRule), (k, rule) ∈ DISEASE_RULES →
      ∀ bm : List (String × ℚ),
        ((rule.logic = "AND" → rule_fires rule bm = true →
            ∀ (bm2 : List (String × ℚ)) (i : Fin rule.conditions.length),
              evaluate_disease_condition (rule.conditions.get i) bm = true →
              evaluate_disease_condition (rule.conditions.get i) bm2 = false →
              (∀ j : Fin rule.conditions.length, j ≠ i →
                evaluate_disease_condition (rule.conditions.get j) bm2
                  = evaluate_disease_condition (rule.conditions.get j) bm) →
              rule_fires rule bm2 = false)
          ∧ (rule.logic = "OR" →
            (rule_fires rule bm = true
              ↔ ∃ c ∈ rule.conditions, evaluate_disease_condition c bm = true)))
        ∧ (rule_fires rule bm = true ↔ rule.name ∈ (detect_diseases bm).map fun d => d.name) := by
  intro k rule hmem bm
  refine ⟨⟨?_, ?_⟩, fires_iff_mem_detect k rule hmem bm⟩
  · intro hlogic _hfire bm2 i _hi hflip _hrest
    simp only [rule_fires]
    rw [hlogic, if_pos rfl]
    cases hcase : (rule.conditions.map fun c => evaluate_disease_condition c bm2).all id with
    | false => rfl
    | true =>
      exfalso
      have hall := List.all_eq_true.mp hcase
      have hmemi : evaluate_disease_condition (rule.conditions.get i) bm2
          ∈ rule.conditions.map fun c => evaluate_disease_condition c bm2 :=
        List.mem_map_of_mem _ (rule.conditions.get_mem i.1 i.2)
      have := hall _ hmemi
      rw [hflip] at this
      exact Bool.false_ne_true this
  · intro hlogic
    simp only [rule_fires]
    rw [hlogic, if_neg (by decide), if_pos rfl]
    simp [List.any_eq_true, List.mem_map]

/-- C10 witness: the AND rule `metabolic_syndrome_risk` fires on a map
satisfying all three conditions, is removed by flipping its first condition
to failing, and its name appears in the detector output exactly when it
fires. -/
theorem claim_C10_witness :
    (("metabolic_syndrome_risk", metabolic_syndrome_risk_rule) ∈ DISEASE_RULES)
    ∧ metabolic_syndrome_risk_rule.logic = "AND"
    ∧ rule_fires metabolic_syndrome_risk_rule
        [("glucose", 100), ("hdl", 50), ("total_cholesterol", 200)] = true
    ∧ rule_fires metabolic_syndrome_risk_rule
        [("glucose", 90), ("hdl", 50), ("total_cholesterol", 200)] = false
    ∧ "Metabolic Syndrome Risk"
        ∈ (detect_diseases [("glucose", 100), ("hdl", 50), ("total_cholesterol", 200)]).map
            fun d => d.name := by
  have h := claim_C10_rule_monotone "metabolic_syndrome_risk" metabolic_syndrome_risk_rule
    (by decide) [("glucose", 100), ("hdl", 50), ("total_cholesterol", 200)]
  refine ⟨by decide, rfl, by decide, ?_, ?_⟩
  · exact h.1.1 rfl (by decide) [("glucose", 90), ("hdl", 50), ("total_cholesterol", 200)]
      ⟨0, by decide⟩ (by decide) (by decide) (by decide)
  · exact h.2.mp (by decide)

end HealthScoreAI
